import Mathlib

/-!
Verification development for the `fastapi-code-executor` service (`main.py`).

The service chains two external collaborators — an LLM completion API and a
remote code-execution API — behind one HTTP endpoint.  Both collaborators are
modelled as oracles (plain functions supplied as parameters); the five Python
functions `suggest_stack`, `generate_code`, `execute_code`, `refine_code` and
`generate_and_run_code` are embedded as Lean functions over those oracles.
Temporal properties (which collaborator is invoked, how often, in which order)
are settled against an event trace that the embedded request handler emits at
exactly the program points where `main.py` performs the corresponding calls.
-/

/-- Decoded JSON values, as produced by `response.json()` / sent as response
bodies.  Numbers are modelled as integers (no claim depends on floats). -/
inductive Json where
  | null : Json
  | bool (b : Bool) : Json
  | num (n : Int) : Json
  | str (s : String) : Json
  | arr (elems : List Json) : Json
  | obj (fields : List (String × Json)) : Json

mutual

/-- Structural equality of decoded JSON values; used for Python's `x in list`. -/
def jsonBeq : Json → Json → Bool
  | Json.null, Json.null => true
  | Json.bool a, Json.bool b => a == b
  | Json.num a, Json.num b => a == b
  | Json.str a, Json.str b => a == b
  | Json.arr a, Json.arr b => jsonBeqList a b
  | Json.obj a, Json.obj b => jsonBeqFields a b
  | _, _ => false

def jsonBeqList : List Json → List Json → Bool
  | [], [] => true
  | x :: xs, y :: ys => jsonBeq x y && jsonBeqList xs ys
  | _, _ => false

def jsonBeqFields : List (String × Json) → List (String × Json) → Bool
  | [], [] => true
  | (k, v) :: xs, (k2, v2) :: ys => k == k2 && jsonBeq v v2 && jsonBeqFields xs ys
  | _, _ => false

end

/-- `Json.isObj j` is true when `j` decodes to a Python `dict`. -/
def Json.isObj : Json → Bool
  | Json.obj _ => true
  | _ => false

/-- Helper for substring search: does the character list contain `pat` as a
contiguous run?  (Python's `needle in haystack` on strings.) -/
def strContainsAux (pat : List Char) : List Char → Bool
  | [] => pat.isEmpty
  | c :: rest => pat.isPrefixOf (c :: rest) || strContainsAux pat rest

/-- Python substring containment `pat in s`. -/
def strContains (s pat : String) : Bool :=
  strContainsAux pat.data s.data

/-- Python's membership test `k in v` on a decoded JSON value `v`:
key lookup on a dict, element equality on a list, substring on a string,
`TypeError` on any non-container (`None`, booleans, numbers). -/
def pyContains (v : Json) (k : String) : Except String Bool :=
  match v with
  | Json.obj fields => Except.ok (fields.any (fun kv => kv.1 == k))
  | Json.arr elems => Except.ok (elems.any (fun e => jsonBeq e (Json.str k)))
  | Json.str s => Except.ok (strContains s k)
  | _ => Except.error "TypeError: argument of type is not iterable"

/-- Python's subscript `v[k]` with a string key on a decoded JSON value:
key lookup on a dict (`KeyError` if missing), `TypeError` on everything else
(string and list subscripts must be integers). -/
def pyGetItem (v : Json) (k : String) : Except String Json :=
  match v with
  | Json.obj fields =>
    match fields.find? (fun kv => kv.1 == k) with
    | some kv => Except.ok kv.2
    | none => Except.error "KeyError"
  | _ => Except.error "TypeError: indices must be integers"

/-- The single-quote character, used by Python `repr` of strings. -/
def pyQuote : Char := Char.ofNat 39

/-- Python `repr` of a string (escape sequences inside the string elided:
no claim depends on them). -/
def pyQuoteStr (s : String) : String :=
  String.singleton pyQuote ++ s ++ String.singleton pyQuote

mutual

/-- Python `repr` of a decoded JSON value, as used by `str()` on containers. -/
def pyRepr : Json → String
  | Json.null => "None"
  | Json.bool true => "True"
  | Json.bool false => "False"
  | Json.num n => toString n
  | Json.str s => pyQuoteStr s
  | Json.arr elems => "[" ++ pyReprList elems ++ "]"
  | Json.obj fields => "\x7b" ++ pyReprFields fields ++ "\x7d"

def pyReprList : List Json → String
  | [] => ""
  | [x] => pyRepr x
  | x :: y :: rest => pyRepr x ++ ", " ++ pyReprList (y :: rest)

def pyReprFields : List (String × Json) → String
  | [] => ""
  | [(k, v)] => pyQuoteStr k ++ ": " ++ pyRepr v
  | (k, v) :: kv2 :: rest => pyQuoteStr k ++ ": " ++ pyRepr v ++ ", " ++ pyReprFields (kv2 :: rest)

end

/-- Python `str()` of a decoded JSON value (as interpolated into an f-string):
a string is taken verbatim, everything else via `repr`. -/
def pyStr : Json → String
  | Json.str s => s
  | v => pyRepr v

/-- One `{role, content}` message of a completion request. -/
structure ChatMessage where
  role : String
  content : String

/-- A completion request: model identifier plus ordered messages. -/
structure ChatRequest where
  model : String
  messages : List ChatMessage

/-- Outcome of one `client.chat.completions.create` call: either the API call
throws (auth failure, rate limit, network failure), or it returns and the first
choice's message content is the (nullable) `Option String`. -/
inductive CompletionOutcome where
  | raise (msg : String) : CompletionOutcome
  | ok (content : Option String) : CompletionOutcome

/-- The completion-service oracle: what the external LLM API does on each
request during this HTTP request. -/
abbrev Completion := ChatRequest → CompletionOutcome

/-- The payload `execute_code` POSTs to `REPLIT_API_URL`. -/
structure ExecPayload where
  language : String
  code : String

/-- Outcome of one `requests.post` call: either a transport-level exception
(timeout, DNS failure, connection refused, malformed response body), or an HTTP
response with a status code and a decoded JSON body. -/
inductive TransportOutcome where
  | raise (msg : String) : TransportOutcome
  | response (status : Nat) (body : Json) : TransportOutcome

/-- The execution-backend oracle: what the remote execution service does on
each POST during this HTTP request. -/
abbrev Transport := ExecPayload → TransportOutcome

/-- Exceptions that can escape the embedded functions: an uncaught completion
API exception, or a Python runtime error (`TypeError`/`KeyError`). -/
inductive PyError where
  | providerException (msg : String) : PyError
  | runtimeError (msg : String) : PyError

/-- The model identifier every completion call in `main.py` uses. -/
def chatModel : String := "gpt-4-turbo-preview"

/-- The prompt `suggest_stack` sends. -/
def stackPrompt (task : String) : String :=
  "Suggest the best tech stack for this project: " ++ task ++
    ". Include frontend, backend, mobile (if applicable), and any required libraries."

/-- The completion request `suggest_stack` sends. -/
def stackRequest (task : String) : ChatRequest :=
  ChatRequest.mk chatModel [ChatMessage.mk "user" (stackPrompt task)]

/-- The prompt `generate_code` sends. -/
def generatePrompt (task stack : String) : String :=
  "Generate a application for " ++ task ++ ". Use " ++ stack ++ " and apply best practices."

/-- The completion request `generate_code` sends. -/
def generateRequest (task stack : String) : ChatRequest :=
  ChatRequest.mk chatModel [ChatMessage.mk "user" (generatePrompt task stack)]

/-- `suggest_stack` from `main.py`: one completion call; `None` content is
replaced by the sentinel `"Unknown stack"`; an API exception is not caught and
propagates (modelled as `Except.error`). -/
def suggest_stack (api : Completion) (task : String) : Except PyError String :=
  match api (stackRequest task) with
  | CompletionOutcome.raise e => Except.error (PyError.providerException e)
  | CompletionOutcome.ok none => Except.ok "Unknown stack"
  | CompletionOutcome.ok (some content) => Except.ok content

/-- `generate_code` from `main.py`: one completion call; `None` content is
replaced by the sentinel `"Unknown code"`; an API exception propagates. -/
def generate_code (api : Completion) (task stack : String) : Except PyError String :=
  match api (generateRequest task stack) with
  | CompletionOutcome.raise e => Except.error (PyError.providerException e)
  | CompletionOutcome.ok none => Except.ok "Unknown code"
  | CompletionOutcome.ok (some content) => Except.ok content

/-- The payload `execute_code` builds: the language tag is hardcoded to
`"python"` next to the code string. -/
def executionPayload (code : String) : ExecPayload :=
  ExecPayload.mk "python" code

/-- How `execute_code` turns the transport outcome into its return value:
status 200 returns the decoded body unchanged; any other status returns
an error dict with the formatted status message; an exception inside the
`try` block is caught and its text returned as an error dict. -/
def execResponseHandler (outcome : TransportOutcome) : Json :=
  match outcome with
  | TransportOutcome.raise e => Json.obj [("error", Json.str e)]
  | TransportOutcome.response status body =>
    if status == 200 then body
    else Json.obj [("error", Json.str ("Execution failed with status " ++ toString status))]

/-- `execute_code` from `main.py`: POST the payload, then dispatch on the
outcome.  Total — it never raises past its own boundary. -/
def execute_code (transport : Transport) (code : String) : Json :=
  execResponseHandler (transport (executionPayload code))

/-- The composite refinement prompt `refine_code` builds. -/
def refinementPrompt (task stack prev_code execution_result : String) : String :=
  "The following full-stack application code was generated for task: " ++ task ++ "\n" ++
    "Stack: " ++ stack ++ "\n" ++
    "Code:\n" ++ prev_code ++ "\n" ++
    "Execution Result:\n" ++ execution_result ++ "\n" ++
    "Please improve the code to fix errors and optimize performance."

/-- `refine_code` from `main.py`: builds the composite prompt and delegates to
`generate_code` with it and the same stack. -/
def refine_code (api : Completion) (task stack prev_code execution_result : String) :
    Except PyError String :=
  generate_code api (refinementPrompt task stack prev_code execution_result) stack

/-- Call events emitted by the request handler, in invocation order. -/
inductive Event where
  | suggestStackCall (task : String) : Event
  | generateCodeCall (task stack : String) : Event
  | executeCodeCall (code : String) : Event
  | refineCodeCall (task stack prev_code execution_result : String) : Event
deriving DecidableEq

/-- True exactly on `suggestStackCall` events. -/
def isSuggestEvent : Event → Bool
  | Event.suggestStackCall _ => true
  | _ => false

/-- True exactly on `generateCodeCall` events. -/
def isGenerateEvent : Event → Bool
  | Event.generateCodeCall _ _ => true
  | _ => false

/-- True exactly on `executeCodeCall` events. -/
def isExecuteEvent : Event → Bool
  | Event.executeCodeCall _ => true
  | _ => false

/-- True exactly on `refineCodeCall` events. -/
def isRefineEvent : Event → Bool
  | Event.refineCodeCall _ _ _ _ => true
  | _ => false

/-- Number of events in a trace satisfying `p`. -/
def countEvents (p : Event → Bool) (evs : List Event) : Nat :=
  (evs.filter p).length

/-- The error branch of the handler: `refine_code` is invoked on the string
form of `execution_result["error"]` (an f-string interpolation applies
`str()`), entering `generate_code` with the composite prompt; the response is
`{"error": execution_result["error"], "improved_code": improved_code}`, and a
completion-API exception raised inside the refinement propagates. -/
def refineStep (api : Completion) (task stack code : String) (errVal : Json) :
    List Event × Except PyError Json :=
  match refine_code api task stack code (pyStr errVal) with
  | Except.error e =>
    ([Event.refineCodeCall task stack code (pyStr errVal),
      Event.generateCodeCall (refinementPrompt task stack code (pyStr errVal)) stack],
      Except.error e)
  | Except.ok improved =>
    ([Event.refineCodeCall task stack code (pyStr errVal),
      Event.generateCodeCall (refinementPrompt task stack code (pyStr errVal)) stack],
      Except.ok (Json.obj [("error", errVal), ("improved_code", Json.str improved)]))

/-- The tail of the handler after the execution result is in hand: the
`if "error" in execution_result` branch of `generate_and_run_code`.  A
membership or subscript `TypeError` escapes as a runtime error; the error
branch runs `refineStep` and responds `{error, improved_code}`; the success
branch responds `{generated_code, execution_result}`. -/
def classifyExecution (api : Completion) (task stack code : String)
    (execution_result : Json) : List Event × Except PyError Json :=
  match pyContains execution_result "error" with
  | Except.error msg => ([], Except.error (PyError.runtimeError msg))
  | Except.ok true =>
    match pyGetItem execution_result "error" with
    | Except.error msg => ([], Except.error (PyError.runtimeError msg))
    | Except.ok errVal => refineStep api task stack code errVal
  | Except.ok false =>
    ([], Except.ok (Json.obj [("generated_code", Json.str code),
      ("execution_result", execution_result)]))

/-- The handler from the point where the stack string is settled: invoke
`generate_code`, then `execute_code`, then classify. -/
def runWithStack (api : Completion) (transport : Transport) (task stack : String) :
    List Event × Except PyError Json :=
  match generate_code api task stack with
  | Except.error e => ([Event.generateCodeCall task stack], Except.error e)
  | Except.ok code =>
    let tail := classifyExecution api task stack code (execute_code transport code)
    (Event.generateCodeCall task stack :: Event.executeCodeCall code :: tail.1, tail.2)

/-- `generate_and_run_code` from `main.py`, instrumented with the call trace.
`if not stack:` is true exactly on the empty string, in which case
`suggest_stack` populates the stack before `generate_code` runs. -/
def generate_and_run_code (api : Completion) (transport : Transport)
    (task stack0 : String) : List Event × Except PyError Json :=
  if stack0 = "" then
    match suggest_stack api task with
    | Except.error e => ([Event.suggestStackCall task], Except.error e)
    | Except.ok stack =>
      let tail := runWithStack api transport task stack
      (Event.suggestStackCall task :: tail.1, tail.2)
  else
    runWithStack api transport task stack0

/-- The FastAPI parameter layer: an omitted `task` query parameter defaults to
`"A ToDo App"` and an omitted `stack` defaults to `"Angular"` before the
handler body runs. -/
def handleRequest (api : Completion) (transport : Transport)
    (taskParam stackParam : Option String) : List Event × Except PyError Json :=
  generate_and_run_code api transport (taskParam.getD "A ToDo App")
    (stackParam.getD "Angular")

/-- The HTTP status the framework sends: 200 for a normal return value, 500
(the framework default) for an unhandled exception. -/
def httpStatusOf (result : Except PyError Json) : Nat :=
  match result with
  | Except.ok _ => 200
  | Except.error _ => 500

/-- True on response bodies of the shape `{generated_code, execution_result}`
(exactly those two keys, in that order). -/
def isSuccessShape : Json → Bool
  | Json.obj [(k1, _), (k2, _)] => k1 == "generated_code" && k2 == "execution_result"
  | _ => false

/-- True on response bodies of the shape `{error, improved_code}`
(exactly those two keys, in that order). -/
def isErrorShape : Json → Bool
  | Json.obj [(k1, _), (k2, _)] => k1 == "error" && k2 == "improved_code"
  | _ => false

/-- A response body carries exactly one of the two documented key pairs. -/
def exactlyOneShape (j : Json) : Prop :=
  (isSuccessShape j = true ∧ isErrorShape j = false) ∨
    (isErrorShape j = true ∧ isSuccessShape j = false)

/-! ### Concrete oracle instances, used by counterexamples and witnesses -/

/-- A completion oracle that always answers with the text `"GEN"`. -/
def apiSome : Completion := fun _ => CompletionOutcome.ok (some "GEN")

/-- A completion oracle whose first choice has `None` content. -/
def apiNone : Completion := fun _ => CompletionOutcome.ok none

/-- A completion oracle whose API call always throws. -/
def apiRaise : Completion := fun _ => CompletionOutcome.raise "rate limit"

/-- An execution backend that returns 200 with body `{"output": "ok"}`. -/
def transportOk : Transport :=
  fun _ => TransportOutcome.response 200 (Json.obj [("output", Json.str "ok")])

/-- An execution backend that returns status 500. -/
def transport500 : Transport := fun _ => TransportOutcome.response 500 Json.null

/-- An execution backend whose POST raises a connection error. -/
def transportRaise : Transport := fun _ => TransportOutcome.raise "connection refused"

/-- An execution backend that returns 200 with the JSON body `5`
(valid JSON, but not a container). -/
def transportNum : Transport := fun _ => TransportOutcome.response 200 (Json.num 5)

/-- An execution backend that returns 200 with body `{"error": "boom"}`. -/
def transportErrBody : Transport :=
  fun _ => TransportOutcome.response 200 (Json.obj [("error", Json.str "boom")])

/-! ### Claims about the individual functions -/

/-- C3: `execute_code` never raises past its own boundary — its return type is
a plain `Json` result, and on any transport-level exception during submission
it catches the exception and returns an error result whose message is the
exception's string representation. -/
theorem c3_transport_exception_caught (transport : Transport) (code e : String)
    (h : transport (executionPayload code) = TransportOutcome.raise e) :
    execute_code transport code = Json.obj [("error", Json.str e)] := by
  unfold execute_code execResponseHandler
  rw [h]

/-- Witness for C3: a backend raising `"connection refused"` yields the error
result `{"error": "connection refused"}`. -/
theorem c3_transport_exception_caught_witness :
    transportRaise (executionPayload "print(1)") = TransportOutcome.raise "connection refused" ∧
      execute_code transportRaise "print(1)" =
        Json.obj [("error", Json.str "connection refused")] :=
  ⟨rfl, c3_transport_exception_caught transportRaise "print(1)" "connection refused" rfl⟩

/-- C4: on HTTP status 200 `execute_code` returns the decoded response body
unchanged, and on any other status `N` it returns
`{"error": "Execution failed with status N"}`. -/
theorem c4_status_dispatch (transport : Transport) (code : String) (status : Nat) (body : Json)
    (h : transport (executionPayload code) = TransportOutcome.response status body) :
    (status = 200 → execute_code transport code = body) ∧
      (status ≠ 200 → execute_code transport code =
        Json.obj [("error", Json.str ("Execution failed with status " ++ toString status))]) := by
  constructor
  · intro hs
    subst hs
    unfold execute_code execResponseHandler
    rw [h]
    simp
  · intro hs
    unfold execute_code execResponseHandler
    rw [h]
    simp [hs]

/-- Witness for C4: a 200 backend's body `{"output": "ok"}` is returned
unchanged, and a 500 backend yields
`{"error": "Execution failed with status 500"}`. -/
theorem c4_status_dispatch_witness :
    execute_code transportOk "print(1)" = Json.obj [("output", Json.str "ok")] ∧
      execute_code transport500 "print(1)" =
        Json.obj [("error", Json.str "Execution failed with status 500")] :=
  ⟨(c4_status_dispatch transportOk "print(1)" 200 (Json.obj [("output", Json.str "ok")]) rfl).1
      rfl,
    (c4_status_dispatch transport500 "print(1)" 500 Json.null rfl).2 (by decide)⟩

/-- C7: for every code string and every backend, the payload `execute_code`
POSTs carries the language tag hardcoded to `"python"` together with the code
string, and the call's result is exactly the handling of the backend's
response to that payload. -/
theorem c7_payload_language_hardcoded (transport : Transport) (code : String) :
    (executionPayload code).language = "python" ∧ (executionPayload code).code = code ∧
      execute_code transport code = execResponseHandler (transport (executionPayload code)) :=
  ⟨rfl, rfl, rfl⟩

/-- C8: when the completion provider returns no text, `suggest_stack` returns
the sentinel `"Unknown stack"` and `generate_code` the sentinel
`"Unknown code"`, instead of failing; otherwise each returns the first
response message's text. -/
theorem c8_sentinel_fallbacks :
    (∀ (api : Completion) (task : String),
        api (stackRequest task) = CompletionOutcome.ok none →
        suggest_stack api task = Except.ok "Unknown stack") ∧
    (∀ (api : Completion) (task c : String),
        api (stackRequest task) = CompletionOutcome.ok (some c) →
        suggest_stack api task = Except.ok c) ∧
    (∀ (api : Completion) (task stack : String),
        api (generateRequest task stack) = CompletionOutcome.ok none →
        generate_code api task stack = Except.ok "Unknown code") ∧
    (∀ (api : Completion) (task stack c : String),
        api (generateRequest task stack) = CompletionOutcome.ok (some c) →
        generate_code api task stack = Except.ok c) := by
  refine ⟨?_, ?_, ?_, ?_⟩
  · intro api task h
    unfold suggest_stack
    rw [h]
  · intro api task c h
    unfold suggest_stack
    rw [h]
  · intro api task stack h
    unfold generate_code
    rw [h]
  · intro api task stack c h
    unfold generate_code
    rw [h]

/-- Witness for C8: the `None`-content oracle yields both sentinels, and the
`"GEN"` oracle yields `"GEN"` from both functions. -/
theorem c8_sentinel_fallbacks_witness :
    suggest_stack apiNone "t" = Except.ok "Unknown stack" ∧
      suggest_stack apiSome "t" = Except.ok "GEN" ∧
      generate_code apiNone "t" "s" = Except.ok "Unknown code" ∧
      generate_code apiSome "t" "s" = Except.ok "GEN" :=
  ⟨c8_sentinel_fallbacks.1 apiNone "t" rfl,
    c8_sentinel_fallbacks.2.1 apiSome "t" "GEN" rfl,
    c8_sentinel_fallbacks.2.2.1 apiNone "t" "s" rfl,
    c8_sentinel_fallbacks.2.2.2 apiSome "t" "s" "GEN" rfl⟩

/-- C10: `refine_code` equals `generate_code` applied to the composite
refinement prompt — embedding the task, stack, previous code and execution
error, and asking to fix errors and optimize performance — and the same
stack; it performs no distinct API integration of its own. -/
theorem c10_refine_delegates (api : Completion)
    (task stack prev_code execution_error : String) :
    refine_code api task stack prev_code execution_error =
      generate_code api
        ("The following full-stack application code was generated for task: " ++ task ++ "\n" ++
          "Stack: " ++ stack ++ "\n" ++
          "Code:\n" ++ prev_code ++ "\n" ++
          "Execution Result:\n" ++ execution_error ++ "\n" ++
          "Please improve the code to fix errors and optimize performance.") stack := rfl

/-! ### Helper lemmas about the handler's pieces -/

/-- If the completion oracle never throws, `generate_code` returns a value. -/
lemma generate_code_no_raise (api : Completion) (task stack : String)
    (hapi : ∀ req msg, api req ≠ CompletionOutcome.raise msg) :
    ∃ code, generate_code api task stack = Except.ok code := by
  unfold generate_code
  cases h : api (generateRequest task stack) with
  | raise msg => exact absurd h (hapi _ _)
  | ok content => cases content <;> exact ⟨_, rfl⟩

/-- With a backend whose 200 responses decode to objects, `execute_code`
always returns a dict: its own error results are already dicts. -/
lemma execute_code_isObj (transport : Transport) (code : String)
    (htr : ∀ p body, transport p = TransportOutcome.response 200 body → body.isObj = true) :
    (execute_code transport code).isObj = true := by
  unfold execute_code execResponseHandler
  cases h : transport (executionPayload code) with
  | raise e => rfl
  | response status body =>
    by_cases hs : status = 200
    · subst hs
      simpa using htr _ _ h
    · simp [hs, Json.isObj]

/-- Both branches of `refineStep` emit the same two events. -/
lemma refineStep_trace (api : Completion) (task stack code : String) (errVal : Json) :
    (refineStep api task stack code errVal).1 =
      [Event.refineCodeCall task stack code (pyStr errVal),
        Event.generateCodeCall (refinementPrompt task stack code (pyStr errVal)) stack] := by
  unfold refineStep
  cases h : refine_code api task stack code (pyStr errVal) <;> rfl

/-- `refineStep` when the refinement's completion call raises. -/
lemma refineStep_raise (api : Completion) (task stack code : String) (errVal : Json)
    (e : PyError) (hrc : refine_code api task stack code (pyStr errVal) = Except.error e) :
    refineStep api task stack code errVal =
      ([Event.refineCodeCall task stack code (pyStr errVal),
        Event.generateCodeCall (refinementPrompt task stack code (pyStr errVal)) stack],
        Except.error e) := by
  unfold refineStep
  rw [hrc]

/-- `refineStep` when the refinement returns improved code. -/
lemma refineStep_ok (api : Completion) (task stack code : String) (errVal : Json)
    (improved : String)
    (hrc : refine_code api task stack code (pyStr errVal) = Except.ok improved) :
    refineStep api task stack code errVal =
      ([Event.refineCodeCall task stack code (pyStr errVal),
        Event.generateCodeCall (refinementPrompt task stack code (pyStr errVal)) stack],
        Except.ok (Json.obj [("error", errVal), ("improved_code", Json.str improved)])) := by
  unfold refineStep
  rw [hrc]

/-- On a dict with no `"error"` key, the handler takes the success branch. -/
lemma classifyExecution_obj_not_found (api : Completion) (task stack code : String)
    (fields : List (String × Json))
    (hany : fields.any (fun kv2 => kv2.1 == "error") = false) :
    classifyExecution api task stack code (Json.obj fields) =
      ([], Except.ok (Json.obj [("generated_code", Json.str code),
        ("execution_result", Json.obj fields)])) := by
  unfold classifyExecution
  rw [show pyContains (Json.obj fields) "error" = Except.ok false from by
    simp [pyContains, hany]]

/-- On a dict whose first `"error"` entry is `kv`, the handler takes the error
branch through `refineStep kv.2`. -/
lemma classifyExecution_obj_found (api : Completion) (task stack code : String)
    (fields : List (String × Json)) (kv : String × Json)
    (hany : fields.any (fun kv2 => kv2.1 == "error") = true)
    (hfind : fields.find? (fun kv2 => kv2.1 == "error") = some kv) :
    classifyExecution api task stack code (Json.obj fields) =
      refineStep api task stack code kv.2 := by
  unfold classifyExecution
  rw [show pyContains (Json.obj fields) "error" = Except.ok true from by
      simp [pyContains, hany],
    show pyGetItem (Json.obj fields) "error" = Except.ok kv.2 from by
      simp [pyGetItem, hfind]]

/-- Every run of the classification step is a runtime error, a pass through
`refineStep`, or the success response. -/
lemma classifyExecution_cases (api : Completion) (task stack code : String) (er : Json) :
    (∃ msg, classifyExecution api task stack code er =
      ([], Except.error (PyError.runtimeError msg))) ∨
    (∃ errVal, classifyExecution api task stack code er =
      refineStep api task stack code errVal) ∨
    classifyExecution api task stack code er =
      ([], Except.ok (Json.obj [("generated_code", Json.str code),
        ("execution_result", er)])) := by
  cases er with
  | null => exact Or.inl ⟨_, rfl⟩
  | bool b => exact Or.inl ⟨_, rfl⟩
  | num n => exact Or.inl ⟨_, rfl⟩
  | str s =>
    cases hb : strContains s "error" with
    | true =>
      refine Or.inl ⟨"TypeError: indices must be integers", ?_⟩
      unfold classifyExecution
      rw [show pyContains (Json.str s) "error" = Except.ok true from by
        simp [pyContains, hb]]
      rfl
    | false =>
      refine Or.inr (Or.inr ?_)
      unfold classifyExecution
      rw [show pyContains (Json.str s) "error" = Except.ok false from by
        simp [pyContains, hb]]
  | arr elems =>
    cases hb : elems.any (fun e => jsonBeq e (Json.str "error")) with
    | true =>
      refine Or.inl ⟨"TypeError: indices must be integers", ?_⟩
      unfold classifyExecution
      rw [show pyContains (Json.arr elems) "error" = Except.ok true from by
        simp [pyContains, hb]]
      rfl
    | false =>
      refine Or.inr (Or.inr ?_)
      unfold classifyExecution
      rw [show pyContains (Json.arr elems) "error" = Except.ok false from by
        simp [pyContains, hb]]
  | obj fields =>
    cases hany : fields.any (fun kv2 => kv2.1 == "error") with
    | false => exact Or.inr (Or.inr (classifyExecution_obj_not_found api task stack code
        fields hany))
    | true =>
      have hex : ∃ kv, fields.find? (fun kv2 => kv2.1 == "error") = some kv := by
        have h2 : (fields.find? fun kv2 => kv2.1 == "error").isSome := by
          rw [List.find?_isSome]
          simpa using List.any_eq_true.mp hany
        exact Option.isSome_iff_exists.mp h2
      obtain ⟨kv, hfind⟩ := hex
      exact Or.inr (Or.inl ⟨kv.2,
        classifyExecution_obj_found api task stack code fields kv hany hfind⟩)

/-- Splitting an event count across a cons cell. -/
lemma countEvents_cons (p : Event → Bool) (e : Event) (l : List Event) :
    countEvents p (e :: l) = (if p e then 1 else 0) + countEvents p l := by
  unfold countEvents
  by_cases hp : p e <;> simp [hp, List.filter_cons, Nat.add_comm]

/-- Counts over the trace of a completed (non-raising) run from a settled
stack: one execution, no stack suggestion, and exactly one refinement on the
error shape, none on the success shape. -/
lemma runWithStack_counts (api : Completion) (transport : Transport)
    (task stack : String) (j : Json)
    (h : (runWithStack api transport task stack).2 = Except.ok j) :
    countEvents isExecuteEvent (runWithStack api transport task stack).1 = 1 ∧
      countEvents isSuggestEvent (runWithStack api transport task stack).1 = 0 ∧
      (isErrorShape j = true →
        countEvents isRefineEvent (runWithStack api transport task stack).1 = 1) ∧
      (isSuccessShape j = true →
        countEvents isRefineEvent (runWithStack api transport task stack).1 = 0) := by
  unfold runWithStack at h ⊢
  cases hgen : generate_code api task stack with
  | error e =>
    rw [hgen] at h
    simp at h
  | ok code =>
    rw [hgen] at h
    dsimp only at h ⊢
    rcases classifyExecution_cases api task stack code (execute_code transport code) with
      ⟨msg, hc⟩ | ⟨errVal, hc⟩ | hc
    · rw [hc] at h
      simp at h
    · rw [hc] at h ⊢
      cases h3 : refine_code api task stack code (pyStr errVal) with
      | error e =>
        rw [refineStep_raise api task stack code errVal e h3] at h
        simp at h
      | ok improved =>
        rw [refineStep_ok api task stack code errVal improved h3] at h ⊢
        have hj : Json.obj [("error", errVal), ("improved_code", Json.str improved)] = j := by
          simpa using h
        subst hj
        refine ⟨rfl, rfl, fun _ => rfl, fun hsu => ?_⟩
        have hfalse : isSuccessShape
            (Json.obj [("error", errVal), ("improved_code", Json.str improved)]) = false := rfl
        rw [hfalse] at hsu
        simp at hsu
    · rw [hc] at h ⊢
      have hj : Json.obj [("generated_code", Json.str code),
          ("execution_result", execute_code transport code)] = j := by
        simpa using h
      subst hj
      refine ⟨rfl, rfl, fun he => ?_, fun _ => rfl⟩
      have hfalse : isErrorShape (Json.obj [("generated_code", Json.str code),
          ("execution_result", execute_code transport code)]) = false := rfl
      rw [hfalse] at he
      simp at he

/-- The trace of a run from a settled stack never contains a stack
suggestion. -/
lemma runWithStack_no_suggest (api : Completion) (transport : Transport)
    (task stack : String) :
    countEvents isSuggestEvent (runWithStack api transport task stack).1 = 0 := by
  unfold runWithStack
  cases hgen : generate_code api task stack with
  | error e => rfl
  | ok code =>
    dsimp only
    rcases classifyExecution_cases api task stack code (execute_code transport code) with
      ⟨msg, hc⟩ | ⟨errVal, hc⟩ | hc
    · rw [hc]
      rfl
    · rw [hc, countEvents_cons, countEvents_cons]
      rw [show (refineStep api task stack code errVal).1 =
          [Event.refineCodeCall task stack code (pyStr errVal),
            Event.generateCodeCall (refinementPrompt task stack code (pyStr errVal)) stack]
          from refineStep_trace api task stack code errVal]
      rfl
    · rw [hc]
      rfl

/-! ### Claims about the request handler -/

/-- C1 counterexample: the claim as stated fails — with non-empty task and
stack (`"Build a counter app"`, `"React"`) and an execution backend that
returns HTTP 200 with the valid JSON body `5`, the membership test
`"error" in execution_result` raises `TypeError`, so the handler produces
neither key pair and the framework answers 500, not 200. -/
theorem c1_unconditional_fails :
    (generate_and_run_code apiSome transportNum "Build a counter app" "React").2 =
      Except.error (PyError.runtimeError "TypeError: argument of type is not iterable") ∧
      httpStatusOf
        (generate_and_run_code apiSome transportNum "Build a counter app" "React").2 = 500 :=
  ⟨rfl, rfl⟩

/-- C1 (amended): for every request with non-empty task and stack, provided
the completion calls return normally and every 200 response from the
execution backend decodes to a JSON object, the handler returns, with HTTP
status 200, a JSON object carrying exactly one of the two key pairs
`{generated_code, execution_result}` or `{error, improved_code}` — never
both and never neither — even when the underlying execution failed. -/
theorem c1_exactly_one_shape (api : Completion) (transport : Transport)
    (task stack : String) (htask : task ≠ "") (hstack : stack ≠ "")
    (hapi : ∀ req msg, api req ≠ CompletionOutcome.raise msg)
    (htr : ∀ p body, transport p = TransportOutcome.response 200 body → body.isObj = true) :
    ∃ j, (generate_and_run_code api transport task stack).2 = Except.ok j ∧
      exactlyOneShape j ∧
      httpStatusOf (generate_and_run_code api transport task stack).2 = 200 := by
  unfold generate_and_run_code
  rw [if_neg hstack]
  unfold runWithStack
  obtain ⟨code, hgen⟩ := generate_code_no_raise api task stack hapi
  rw [hgen]
  dsimp only
  have hobj := execute_code_isObj transport code htr
  rcases hjson : execute_code transport code with _ | b | n | s | elems | fields
  · rw [hjson] at hobj
    simp [Json.isObj] at hobj
  · rw [hjson] at hobj
    simp [Json.isObj] at hobj
  · rw [hjson] at hobj
    simp [Json.isObj] at hobj
  · rw [hjson] at hobj
    simp [Json.isObj] at hobj
  · rw [hjson] at hobj
    simp [Json.isObj] at hobj
  · cases hany : fields.any (fun kv2 => kv2.1 == "error") with
    | false =>
      rw [classifyExecution_obj_not_found api task stack code fields hany]
      exact ⟨_, rfl, Or.inl ⟨rfl, rfl⟩, rfl⟩
    | true =>
      have hex : ∃ kv, fields.find? (fun kv2 => kv2.1 == "error") = some kv := by
        have h2 : (fields.find? fun kv2 => kv2.1 == "error").isSome := by
          rw [List.find?_isSome]
          simpa using List.any_eq_true.mp hany
        exact Option.isSome_iff_exists.mp h2
      obtain ⟨kv, hfind⟩ := hex
      obtain ⟨improved, hrc⟩ := generate_code_no_raise api
        (refinementPrompt task stack code (pyStr kv.2)) stack hapi
      rw [classifyExecution_obj_found api task stack code fields kv hany hfind,
        refineStep_ok api task stack code kv.2 improved hrc]
      exact ⟨_, rfl, Or.inr ⟨rfl, rfl⟩, rfl⟩

/-- Witness for C1 (amended) at a concrete request and well-behaved
oracles. -/
theorem c1_exactly_one_shape_witness :
    ("Build a counter app" : String) ≠ "" ∧ ("React" : String) ≠ "" ∧
      ∃ j, (generate_and_run_code apiSome transportOk "Build a counter app" "React").2 =
          Except.ok j ∧
        exactlyOneShape j ∧
        httpStatusOf
          (generate_and_run_code apiSome transportOk "Build a counter app" "React").2 = 200 :=
  ⟨by decide, by decide,
    c1_exactly_one_shape apiSome transportOk "Build a counter app" "React"
      (by decide) (by decide)
      (fun req msg h => CompletionOutcome.noConfusion h)
      (fun p body h => by cases h; rfl)⟩

/-- C2 counterexample: when the `stack` query parameter is omitted, the
FastAPI default `"Angular"` (which is non-empty) applies, so the handler runs
`generate_code` without ever invoking `suggest_stack` — the "omitted" clause
of the claim fails on the code. -/
theorem c2_omitted_stack_counterexample :
    (handleRequest apiSome transportOk (some "Build a counter app") none).1 =
      [Event.generateCodeCall "Build a counter app" "Angular",
        Event.executeCodeCall "GEN"] ∧
      countEvents isSuggestEvent
        (handleRequest apiSome transportOk (some "Build a counter app") none).1 = 0 :=
  ⟨rfl, rfl⟩

/-- C2 (amended): when the `stack` parameter is the empty string,
`suggest_stack` is invoked first — before `generate_code`; when `stack` is
non-empty, `suggest_stack` is never invoked; and when `stack` is omitted the
default `"Angular"` applies, so `suggest_stack` is likewise never invoked. -/
theorem c2_stack_empty_suggest_ordering :
    (∀ (api : Completion) (transport : Transport) (task : String), ∃ rest,
        (generate_and_run_code api transport task "").1 =
          Event.suggestStackCall task :: rest) ∧
    (∀ (api : Completion) (transport : Transport) (task stack : String), stack ≠ "" →
        countEvents isSuggestEvent (generate_and_run_code api transport task stack).1 = 0) ∧
    (∀ (api : Completion) (transport : Transport) (taskParam : Option String),
        countEvents isSuggestEvent (handleRequest api transport taskParam none).1 = 0) := by
  refine ⟨?_, ?_, ?_⟩
  · intro api transport task
    unfold generate_and_run_code
    rw [if_pos rfl]
    cases hsug : suggest_stack api task with
    | error e => exact ⟨[], rfl⟩
    | ok stack => exact ⟨(runWithStack api transport task stack).1, rfl⟩
  · intro api transport task stack hs
    unfold generate_and_run_code
    rw [if_neg hs]
    exact runWithStack_no_suggest api transport task stack
  · intro api transport taskParam
    unfold handleRequest generate_and_run_code
    rw [show (Option.getD (none : Option String) "Angular") = "Angular" from rfl,
      if_neg (by decide : ("Angular" : String) ≠ "")]
    exact runWithStack_no_suggest api transport (taskParam.getD "A ToDo App") "Angular"

/-- Witness for C2 (amended): a non-empty stack yields no suggestion call,
and the empty stack puts the suggestion call first. -/
theorem c2_stack_empty_suggest_ordering_witness :
    ("React" : String) ≠ "" ∧
      countEvents isSuggestEvent
        (generate_and_run_code apiSome transportOk "t" "React").1 = 0 ∧
      ∃ rest, (generate_and_run_code apiSome transportOk "t" "").1 =
        Event.suggestStackCall "t" :: rest :=
  ⟨by decide,
    c2_stack_empty_suggest_ordering.2.1 apiSome transportOk "t" "React" (by decide),
    c2_stack_empty_suggest_ordering.1 apiSome transportOk "t"⟩

/-- C5: on every completed request, `execute_code` is invoked exactly once,
and `refine_code` is invoked exactly once when the response is the error
shape and zero times when it is the success shape — the improved code is
never submitted for execution. -/
theorem c5_refine_once_on_error (api : Completion) (transport : Transport)
    (task stack : String) (j : Json)
    (h : (generate_and_run_code api transport task stack).2 = Except.ok j) :
    countEvents isExecuteEvent (generate_and_run_code api transport task stack).1 = 1 ∧
      (isErrorShape j = true →
        countEvents isRefineEvent (generate_and_run_code api transport task stack).1 = 1) ∧
      (isSuccessShape j = true →
        countEvents isRefineEvent (generate_and_run_code api transport task stack).1 = 0) := by
  unfold generate_and_run_code at h ⊢
  by_cases hs : stack = ""
  · rw [if_pos hs] at h ⊢
    cases hsug : suggest_stack api task with
    | error e =>
      rw [hsug] at h
      simp at h
    | ok stack2 =>
      rw [hsug] at h
      dsimp only at h ⊢
      obtain ⟨hexec, hnos, herr, hsucc⟩ := runWithStack_counts api transport task stack2 j h
      refine ⟨?_, fun he => ?_, fun hsu => ?_⟩
      · rw [countEvents_cons]
        simpa [isExecuteEvent] using hexec
      · rw [countEvents_cons]
        simpa [isRefineEvent] using herr he
      · rw [countEvents_cons]
        simpa [isRefineEvent] using hsucc hsu
  · rw [if_neg hs] at h ⊢
    exact ⟨(runWithStack_counts api transport task stack j h).1,
      (runWithStack_counts api transport task stack j h).2.2.1,
      (runWithStack_counts api transport task stack j h).2.2.2⟩

/-- Witness for C5: against a 500 backend, one execution and one refinement
happen and the response is the error shape. -/
theorem c5_refine_once_on_error_witness :
    (generate_and_run_code apiSome transport500 "t" "React").2 =
      Except.ok (Json.obj [("error", Json.str "Execution failed with status 500"),
        ("improved_code", Json.str "GEN")]) ∧
      countEvents isExecuteEvent
        (generate_and_run_code apiSome transport500 "t" "React").1 = 1 ∧
      countEvents isRefineEvent
        (generate_and_run_code apiSome transport500 "t" "React").1 = 1 :=
  ⟨rfl,
    (c5_refine_once_on_error apiSome transport500 "t" "React"
      (Json.obj [("error", Json.str "Execution failed with status 500"),
        ("improved_code", Json.str "GEN")]) rfl).1,
    (c5_refine_once_on_error apiSome transport500 "t" "React"
      (Json.obj [("error", Json.str "Execution failed with status 500"),
        ("improved_code", Json.str "GEN")]) rfl).2.1 rfl⟩

/-- C6: the handler classifies by key membership, not by HTTP status — when
the backend answers 200 with a JSON object containing the key `"error"`, the
handler takes the error path, invokes the refinement once, and responds with
the `{error, improved_code}` shape, even though `execute_code` returned that
body as its success result. -/
theorem c6_error_key_classification (api : Completion) (transport : Transport)
    (task stack : String) (fields : List (String × Json)) (kv : String × Json)
    (hstack : stack ≠ "")
    (hapi : ∀ req msg, api req ≠ CompletionOutcome.raise msg)
    (htr : ∀ p, transport p = TransportOutcome.response 200 (Json.obj fields))
    (hfind : fields.find? (fun kv2 => kv2.1 == "error") = some kv) :
    ∃ improved evs,
      generate_and_run_code api transport task stack =
        (evs, Except.ok (Json.obj [("error", kv.2),
          ("improved_code", Json.str improved)])) ∧
      countEvents isRefineEvent evs = 1 := by
  have hany : fields.any (fun kv2 => kv2.1 == "error") = true := by
    have h5 := List.find?_some hfind
    rw [List.any_eq_true]
    exact ⟨kv, List.mem_of_find?_eq_some hfind, h5⟩
  unfold generate_and_run_code
  rw [if_neg hstack]
  unfold runWithStack
  obtain ⟨code, hgen⟩ := generate_code_no_raise api task stack hapi
  rw [hgen]
  dsimp only
  have hexec : execute_code transport code = Json.obj fields := by
    unfold execute_code execResponseHandler
    rw [htr (executionPayload code)]
    simp
  obtain ⟨improved, hrc⟩ := generate_code_no_raise api
    (refinementPrompt task stack code (pyStr kv.2)) stack hapi
  rw [hexec, classifyExecution_obj_found api task stack code fields kv hany hfind,
    refineStep_ok api task stack code kv.2 improved hrc]
  exact ⟨improved, _, rfl, rfl⟩

/-- Witness for C6: a 200 backend whose body is `{"error": "boom"}` drives
the handler down the error path with one refinement. -/
theorem c6_error_key_classification_witness :
    ∃ improved evs,
      generate_and_run_code apiSome transportErrBody "t" "React" =
        (evs, Except.ok (Json.obj [("error", Json.str "boom"),
          ("improved_code", Json.str improved)])) ∧
      countEvents isRefineEvent evs = 1 :=
  c6_error_key_classification apiSome transportErrBody "t" "React"
    [("error", Json.str "boom")] ("error", Json.str "boom")
    (by decide)
    (fun req msg h => CompletionOutcome.noConfusion h)
    (fun p => rfl)
    rfl

/-- C9: a completion-API exception is caught nowhere — it propagates out of
`suggest_stack`, `generate_code` and `refine_code` through
`generate_and_run_code` to the request boundary (framework default status
500), and neither documented response shape is produced. -/
theorem c9_provider_exception_propagates :
    (∀ (api : Completion) (transport : Transport) (task e : String),
        api (stackRequest task) = CompletionOutcome.raise e →
        suggest_stack api task = Except.error (PyError.providerException e) ∧
          generate_and_run_code api transport task "" =
            ([Event.suggestStackCall task], Except.error (PyError.providerException e)) ∧
          httpStatusOf (generate_and_run_code api transport task "").2 = 500) ∧
    (∀ (api : Completion) (transport : Transport) (task stack e : String), stack ≠ "" →
        api (generateRequest task stack) = CompletionOutcome.raise e →
        (generate_and_run_code api transport task stack).2 =
          Except.error (PyError.providerException e) ∧
          httpStatusOf (generate_and_run_code api transport task stack).2 = 500) ∧
    (∀ (api : Completion) (transport : Transport) (task stack code msg e : String),
        stack ≠ "" →
        api (generateRequest task stack) = CompletionOutcome.ok (some code) →
        transport (executionPayload code) = TransportOutcome.raise msg →
        api (generateRequest (refinementPrompt task stack code msg) stack) =
          CompletionOutcome.raise e →
        (generate_and_run_code api transport task stack).2 =
          Except.error (PyError.providerException e)) := by
  refine ⟨?_, ?_, ?_⟩
  · intro api transport task e h
    have hsug : suggest_stack api task = Except.error (PyError.providerException e) := by
      unfold suggest_stack
      rw [h]
    refine ⟨hsug, ?_, ?_⟩
    · unfold generate_and_run_code
      rw [if_pos rfl, hsug]
    · unfold generate_and_run_code
      rw [if_pos rfl, hsug]
      rfl
  · intro api transport task stack e hs h
    have hgen : generate_code api task stack = Except.error (PyError.providerException e) := by
      unfold generate_code
      rw [h]
    refine ⟨?_, ?_⟩
    · unfold generate_and_run_code
      rw [if_neg hs]
      unfold runWithStack
      rw [hgen]
    · unfold generate_and_run_code
      rw [if_neg hs]
      unfold runWithStack
      rw [hgen]
      rfl
  · intro api transport task stack code msg e hs h2 h3 h4
    have hgen : generate_code api task stack = Except.ok code := by
      unfold generate_code
      rw [h2]
    have hexec : execute_code transport code = Json.obj [("error", Json.str msg)] := by
      unfold execute_code execResponseHandler
      rw [h3]
    have hrc : refine_code api task stack code msg =
        Except.error (PyError.providerException e) := by
      unfold refine_code generate_code
      rw [h4]
    unfold generate_and_run_code
    rw [if_neg hs]
    unfold runWithStack
    rw [hgen]
    dsimp only
    rw [hexec, classifyExecution_obj_found api task stack code
        [("error", Json.str msg)] ("error", Json.str msg) rfl rfl,
      refineStep_raise api task stack code (Json.str msg)
        (PyError.providerException e) hrc]

/-- Witness for C9: an always-throwing completion oracle makes the handler
itself propagate the exception and the framework answer 500. -/
theorem c9_provider_exception_propagates_witness :
    suggest_stack apiRaise "t" = Except.error (PyError.providerException "rate limit") ∧
      generate_and_run_code apiRaise transportOk "t" "" =
        ([Event.suggestStackCall "t"],
          Except.error (PyError.providerException "rate limit")) ∧
      httpStatusOf (generate_and_run_code apiRaise transportOk "t" "").2 = 500 :=
  c9_provider_exception_propagates.1 apiRaise transportOk "t" "rate limit" rfl
